import Mathlib

/-!
Verification of the blog's RSS feed builder (`src/pages/feed/blog.xml.js`).

The JavaScript module is:

  const postImportResult = import.meta.glob("../blog/*.md", { eager: true });
  const posts = Object.values(postImportResult);

  export const get = () =>
    rss({
      title: "Interactions.Rest Blog",
      description: "A blog about Workers and web development",
      site: import.meta.env.SITE,
      items: posts.map((post) => ({
        link: post.url,
        title: post.frontmatter.title,
        pubDate: post.frontmatter.publishedAt,
      })),
    });

We embed the post modules produced by the eager glob, the module-level
`posts` list, and `get` as a pure function of the module state and the
SITE environment value.  JavaScript property access on an object that
lacks the key yields `undefined` rather than throwing, so front-matter
fields that may be absent are embedded as `Option String`.  `get`
performs no assignment, which the embedding makes explicit by threading
the module state through and returning it alongside the feed descriptor
passed to the external `rss` serializer.
-/

namespace Blog

/-- Front-matter block of a blog post markdown file, as exposed on the
module object produced by the eager glob.  The keys appearing in the
repository's content files are `layout`, `title`, `image`,
`publishedAt`, `category`; any of them may be absent, in which case a
JavaScript read returns `undefined` (`none`). -/
structure Frontmatter where
  layout : Option String
  title : Option String
  image : Option String
  publishedAt : Option String
  category : Option String
deriving Repr, DecidableEq

/-- A post module as loaded by `import.meta.glob("../blog/*.md", { eager: true })`:
the resolved page `url`, the `frontmatter` record, and the compiled
markdown `body` (unused by the feed builder). -/
structure Post where
  url : String
  frontmatter : Frontmatter
  body : String
deriving Repr, DecidableEq

/-- One element of the `items` array handed to the `rss` serializer. -/
structure FeedItem where
  link : String
  title : Option String
  pubDate : Option String
deriving Repr, DecidableEq

/-- The feed descriptor object passed to the external `rss` serializer. -/
structure Feed where
  title : String
  description : String
  site : String
  items : List FeedItem
deriving Repr, DecidableEq

/-- Module-level state of `blog.xml.js`:
`postImportResult` is the result of the eager glob, an object mapping
each matched file path to its loaded post module, evaluated once when
the module is initialised.  JavaScript objects enumerate string keys in
insertion order, so we embed it as an association list. -/
structure ModuleState where
  postImportResult : List (String × Post)
deriving Repr, DecidableEq

/-- Module initialisation: `import.meta.glob("../blog/*.md", { eager: true })`
captures the content files present on the filesystem at module-load
time. -/
def loadModule (fsAtInit : List (String × Post)) : ModuleState :=
  { postImportResult := fsAtInit }

/-- The module-level `const posts = Object.values(postImportResult)`:
the post modules in the glob object's enumeration order. -/
def posts (s : ModuleState) : List Post :=
  s.postImportResult.map Prod.snd

/-- The arrow function body inside `posts.map(...)`: builds one feed
item from one post module. -/
def mkFeedItem (post : Post) : FeedItem :=
  { link := post.url
    title := post.frontmatter.title
    pubDate := post.frontmatter.publishedAt }

/-- The exported `get` endpoint.  `SITE` is `import.meta.env.SITE`.  The
function body only reads the module state, so the embedding returns the
state unchanged alongside the feed descriptor it hands to `rss`. -/
def get (SITE : String) (s : ModuleState) : Feed × ModuleState :=
  ({ title := "Interactions.Rest Blog"
     description := "A blog about Workers and web development"
     site := SITE
     items := (posts s).map mkFeedItem }, s)

/-- A request served against the running module: the handler closes
over the module-level `posts` list, so the content files present on the
filesystem at request time (`fsAtRequest`) are never consulted — the
code contains no re-glob on the request path. -/
def serveRequest (s : ModuleState) (fsAtRequest : List (String × Post))
    (SITE : String) : Feed :=
  (get SITE s).1

/-- Agreement of two post modules on exactly the three fields the feed
builder reads: `url`, `frontmatter.title`, `frontmatter.publishedAt`. -/
def agreeOnFeedFields (p q : Post) : Prop :=
  p.url = q.url ∧ p.frontmatter.title = q.frontmatter.title ∧
    p.frontmatter.publishedAt = q.frontmatter.publishedAt

instance : DecidablePred fun pq : Post × Post => agreeOnFeedFields pq.1 pq.2 :=
  fun _ => by unfold agreeOnFeedFields; infer_instance

/-- A sample front-matter record, as in `bootstrapping-d1.md`. -/
def fmA : Frontmatter :=
  { layout := some "../../layouts/Post.astro"
    title := some "Bootstrapping your D1 Database With D1-ORM"
    image := some "/images/bootstrap-d1/icon"
    publishedAt := some "2022-11-18"
    category := some "Cloudflare Workers, D1, SQL" }

/-- A sample post module. -/
def postA : Post :=
  { url := "/blog/bootstrapping-d1"
    frontmatter := fmA
    body := "### What is D1?" }

/-- A post whose front-matter lacks the `publishedAt` field (its
`title` is present). -/
def postNoDate : Post :=
  { url := "/blog/missing-date"
    frontmatter :=
      { layout := some "../../layouts/Post.astro"
        title := some "A post without a publish date"
        image := none
        publishedAt := none
        category := some "Misc" }
    body := "body" }

end Blog

namespace Blog

/-- C1: For every post in the loaded content store, the feed item
produced for it by `get` has `link` equal to the post's `url`, `title`
equal to the post's front-matter `title`, and `pubDate` equal to the
post's front-matter `publishedAt`, with no transformation of any of the
three values. -/
theorem get_item_fields (SITE : String) (s : ModuleState) (i : Nat)
    (h : i < (posts s).length) :
    i < (get SITE s).1.items.length ∧
    ∀ h' : i < (get SITE s).1.items.length,
      ((get SITE s).1.items.get ⟨i, h'⟩).link = ((posts s).get ⟨i, h⟩).url ∧
      ((get SITE s).1.items.get ⟨i, h'⟩).title
        = ((posts s).get ⟨i, h⟩).frontmatter.title ∧
      ((get SITE s).1.items.get ⟨i, h'⟩).pubDate
        = ((posts s).get ⟨i, h⟩).frontmatter.publishedAt := by
  refine ⟨by simpa [get] using h, fun h' => ?_⟩
  simp [get, mkFeedItem, List.getElem_map]

/-- Witness for C1 on a concrete one-post store. -/
theorem get_item_fields_witness :
    0 < (posts (loadModule [("../blog/bootstrapping-d1.md", postA)])).length ∧
    ∀ h' : 0 < (get "https://interactions.rest"
        (loadModule [("../blog/bootstrapping-d1.md", postA)])).1.items.length,
      ((get "https://interactions.rest"
          (loadModule [("../blog/bootstrapping-d1.md", postA)])).1.items.get
            ⟨0, h'⟩).link
        = ((posts (loadModule [("../blog/bootstrapping-d1.md", postA)])).get
            ⟨0, by decide⟩).url ∧
      ((get "https://interactions.rest"
          (loadModule [("../blog/bootstrapping-d1.md", postA)])).1.items.get
            ⟨0, h'⟩).title
        = ((posts (loadModule [("../blog/bootstrapping-d1.md", postA)])).get
            ⟨0, by decide⟩).frontmatter.title ∧
      ((get "https://interactions.rest"
          (loadModule [("../blog/bootstrapping-d1.md", postA)])).1.items.get
            ⟨0, h'⟩).pubDate
        = ((posts (loadModule [("../blog/bootstrapping-d1.md", postA)])).get
            ⟨0, by decide⟩).frontmatter.publishedAt :=
  ⟨by decide,
    (get_item_fields "https://interactions.rest"
      (loadModule [("../blog/bootstrapping-d1.md", postA)]) 0 (by decide)).2⟩

/-- C2: For every content store, the number of feed items passed to the
RSS serializer by `get` equals the number of loaded content files: no
post is filtered out, deduplicated, or added. -/
theorem get_items_length (SITE : String) (s : ModuleState) :
    (get SITE s).1.items.length = s.postImportResult.length := by
  simp [get, posts]

/-- C3: For every invocation, the feed descriptor produced by `get` has
channel title exactly "Interactions.Rest Blog", channel description
exactly "A blog about Workers and web development", and a `site` value
equal verbatim to the configured environment SITE value. -/
theorem get_channel_fields (SITE : String) (s : ModuleState) :
    (get SITE s).1.title = "Interactions.Rest Blog" ∧
    (get SITE s).1.description = "A blog about Workers and web development" ∧
    (get SITE s).1.site = SITE :=
  ⟨rfl, rfl, rfl⟩

/-- C4: For every content store, the sequence of feed items produced by
`get` is in the same order as the enumeration order of the loaded
posts; no sorting by publish date or any other key is applied: the
`i`-th item's link, title and pubDate come from the `i`-th post. -/
theorem get_items_order (SITE : String) (s : ModuleState) :
    (get SITE s).1.items.map FeedItem.link = (posts s).map Post.url ∧
    (get SITE s).1.items.map FeedItem.title
      = (posts s).map (fun p => p.frontmatter.title) ∧
    (get SITE s).1.items.map FeedItem.pubDate
      = (posts s).map (fun p => p.frontmatter.publishedAt) := by
  refine ⟨?_, ?_, ?_⟩ <;> simp [get, mkFeedItem, Function.comp]

/-- C5: `get` is deterministic: two invocations against an unchanged
content store and unchanged SITE configuration produce identical feed
descriptors (no timestamp or other non-deterministic value is injected
by the builder). -/
theorem get_deterministic (SITE₁ SITE₂ : String) (s₁ s₂ : ModuleState)
    (hS : SITE₁ = SITE₂) (hs : s₁ = s₂) :
    get SITE₁ s₁ = get SITE₂ s₂ := by
  rw [hS, hs]

/-- Witness for C5 at a concrete store and SITE. -/
theorem get_deterministic_witness :
    get "https://interactions.rest"
        (loadModule [("../blog/bootstrapping-d1.md", postA)])
      = get "https://interactions.rest"
          (loadModule [("../blog/bootstrapping-d1.md", postA)]) :=
  get_deterministic "https://interactions.rest" "https://interactions.rest"
    (loadModule [("../blog/bootstrapping-d1.md", postA)])
    (loadModule [("../blog/bootstrapping-d1.md", postA)]) rfl rfl

/-- C6 counterexample: the claim that the set of posts used to build the
feed reflects the files present at request time is false.  Concretely:
the module is initialised while one content file exists, the file is
then deleted, and a request arrives with the filesystem empty; the feed
still carries one item, not zero. -/
theorem serveRequest_not_request_time :
    ¬ ((serveRequest (loadModule [("../blog/bootstrapping-d1.md", postA)])
          [] "https://interactions.rest").items.length
        = ([] : List (String × Post)).length) := by
  decide

/-- C6 amended: the glob result is captured once at module
initialisation and every invocation of `get` reuses that module-level
post list, so the feed reflects the content files present at
module-load time, regardless of the files present at request time. -/
theorem serveRequest_module_load_time (fsAtInit fsAtRequest : List (String × Post))
    (SITE : String) :
    (serveRequest (loadModule fsAtInit) fsAtRequest SITE).items
      = (fsAtInit.map Prod.snd).map mkFeedItem := by
  simp [serveRequest, get, posts, loadModule]

/-- C7: If a loaded post's front-matter lacks the `title` or the
`publishedAt` field (either one alone, or both), `get` does not raise
an error: it still produces a feed item for that post, and whichever
field is missing in the front-matter is missing/undefined (`none`) in
the output item. -/
theorem get_missing_frontmatter (SITE : String) (s : ModuleState) (i : Nat)
    (h : i < (posts s).length)
    (hmiss : ((posts s).get ⟨i, h⟩).frontmatter.title = none ∨
      ((posts s).get ⟨i, h⟩).frontmatter.publishedAt = none) :
    (get SITE s).1.items.length = (posts s).length ∧
    ∀ h' : i < (get SITE s).1.items.length,
      (((posts s).get ⟨i, h⟩).frontmatter.title = none →
        ((get SITE s).1.items.get ⟨i, h'⟩).title = none) ∧
      (((posts s).get ⟨i, h⟩).frontmatter.publishedAt = none →
        ((get SITE s).1.items.get ⟨i, h'⟩).pubDate = none) ∧
      (((get SITE s).1.items.get ⟨i, h'⟩).title = none ∨
        ((get SITE s).1.items.get ⟨i, h'⟩).pubDate = none) := by
  rw [List.get_eq_getElem] at hmiss
  refine ⟨by simp [get], fun h' => ?_⟩
  refine ⟨fun ht => ?_, fun hp => ?_, ?_⟩
  · rw [List.get_eq_getElem] at ht
    simp [get, mkFeedItem, List.getElem_map, ht]
  · rw [List.get_eq_getElem] at hp
    simp [get, mkFeedItem, List.getElem_map, hp]
  · rcases hmiss with ht | hp
    · exact Or.inl (by simp [get, mkFeedItem, List.getElem_map, ht])
    · exact Or.inr (by simp [get, mkFeedItem, List.getElem_map, hp])

/-- Witness for C7 on a store whose only post lacks `publishedAt` alone
(its `title` is present). -/
theorem get_missing_frontmatter_witness :
    0 < (posts (loadModule [("../blog/missing-date.md", postNoDate)])).length ∧
    ((posts (loadModule [("../blog/missing-date.md", postNoDate)])).get
        ⟨0, by decide⟩).frontmatter.publishedAt = none ∧
    ((get "https://interactions.rest"
        (loadModule [("../blog/missing-date.md", postNoDate)])).1.items.length
      = (posts (loadModule [("../blog/missing-date.md", postNoDate)])).length ∧
    ∀ h' : 0 < (get "https://interactions.rest"
        (loadModule [("../blog/missing-date.md", postNoDate)])).1.items.length,
      (((posts (loadModule [("../blog/missing-date.md", postNoDate)])).get
          ⟨0, by decide⟩).frontmatter.title = none →
        ((get "https://interactions.rest"
            (loadModule [("../blog/missing-date.md", postNoDate)])).1.items.get
              ⟨0, h'⟩).title = none) ∧
      (((posts (loadModule [("../blog/missing-date.md", postNoDate)])).get
          ⟨0, by decide⟩).frontmatter.publishedAt = none →
        ((get "https://interactions.rest"
            (loadModule [("../blog/missing-date.md", postNoDate)])).1.items.get
              ⟨0, h'⟩).pubDate = none) ∧
      (((get "https://interactions.rest"
          (loadModule [("../blog/missing-date.md", postNoDate)])).1.items.get
            ⟨0, h'⟩).title = none ∨
        ((get "https://interactions.rest"
            (loadModule [("../blog/missing-date.md", postNoDate)])).1.items.get
              ⟨0, h'⟩).pubDate = none)) :=
  ⟨by decide, by decide,
    get_missing_frontmatter "https://interactions.rest"
      (loadModule [("../blog/missing-date.md", postNoDate)]) 0
      (by decide) (Or.inr (by decide))⟩

/-- C8: When the content store contains zero files, `get` succeeds and
produces a feed descriptor whose items sequence is empty. -/
theorem get_empty_store (SITE : String) (s : ModuleState)
    (h : s.postImportResult = []) :
    (get SITE s).1.items = [] := by
  simp [get, posts, h]

/-- Witness for C8 on the empty store. -/
theorem get_empty_store_witness :
    (get "https://interactions.rest" (loadModule [])).1.items = [] :=
  get_empty_store "https://interactions.rest" (loadModule []) rfl

/-- C9: The feed output is independent of each post's `image`,
`category`, `layout`, and `body`: for any two content stores whose
posts agree pairwise on `url`, `title`, and `publishedAt` but differ
arbitrarily in the other fields, `get` produces the same feed
descriptor. -/
theorem get_ignores_unused_fields (SITE : String) (s₁ s₂ : ModuleState)
    (h : List.Forall₂ agreeOnFeedFields (posts s₁) (posts s₂)) :
    (get SITE s₁).1 = (get SITE s₂).1 := by
  have hitems : ∀ l₁ l₂ : List Post, List.Forall₂ agreeOnFeedFields l₁ l₂ →
      l₁.map mkFeedItem = l₂.map mkFeedItem := by
    intro l₁ l₂ hl
    induction hl with
    | nil => rfl
    | cons hpq _ ih =>
        obtain ⟨hu, ht, hp⟩ := hpq
        simp only [List.map_cons, ih, List.cons.injEq, and_true]
        simp [mkFeedItem, hu, ht, hp]
  simp [get, hitems _ _ h]

/-- Witness for C9: a second post module with the same `url`, `title`
and `publishedAt` as `postA` but different layout, image, category and
body. -/
def postA' : Post :=
  { url := "/blog/bootstrapping-d1"
    frontmatter :=
      { layout := some "other-layout"
        title := some "Bootstrapping your D1 Database With D1-ORM"
        image := none
        publishedAt := some "2022-11-18"
        category := some "different category" }
    body := "entirely different body text" }

/-- Witness for C9 comparing two concrete stores that differ only in
fields the feed builder never reads. -/
theorem get_ignores_unused_fields_witness :
    List.Forall₂ agreeOnFeedFields
        (posts (loadModule [("../blog/bootstrapping-d1.md", postA)]))
        (posts (loadModule [("../blog/bootstrapping-d1.md", postA')])) ∧
    (get "https://interactions.rest"
        (loadModule [("../blog/bootstrapping-d1.md", postA)])).1
      = (get "https://interactions.rest"
          (loadModule [("../blog/bootstrapping-d1.md", postA')])).1 := by
  have h : List.Forall₂ agreeOnFeedFields
      (posts (loadModule [("../blog/bootstrapping-d1.md", postA)]))
      (posts (loadModule [("../blog/bootstrapping-d1.md", postA')])) := by
    refine List.Forall₂.cons ?_ List.Forall₂.nil
    exact ⟨rfl, rfl, rfl⟩
  exact ⟨h, get_ignores_unused_fields "https://interactions.rest" _ _ h⟩

/-- C10: `get` has no side effects on the program's own state: it
returns the module state unchanged, so the module-level `posts`
collection and every post record are identical before and after the
invocation. -/
theorem get_no_side_effects (SITE : String) (s : ModuleState) :
    (get SITE s).2 = s ∧ posts (get SITE s).2 = posts s :=
  ⟨rfl, rfl⟩

end Blog
